import Mathlib

/-!
Shallow embedding of `src/xl2pl.py` (functions `load_excel` and `save_excel`).

Cell values are modelled by `CellVal` (the `None` / string / integer values openpyxl
yields that the claims exercise).  A sheet is a list of rows of cells, a workbook a
list of named sheets.  Python exceptions are modelled by `PyErr`; fallible steps
return `Except PyErr`.  Filesystem state is passed explicitly: an existence
predicate for `load_excel`, a path-to-workbook map for `save_excel`.
-/

namespace Xl2pl

/-- openpyxl cell values as far as the claims need them: `None`, strings, integers. -/
inductive CellVal where
  | none
  | str (s : String)
  | int (n : Int)
deriving DecidableEq

/-- Python exception classes distinguished by the source. -/
inductive PyErr where
  | valueError
  | typeError
  | indexError
  | runtimeError
  | assertionError
deriving DecidableEq

/-- A sheet: rows of cells, as `iter_rows` yields them. -/
abbrev Sheet := List (List CellVal)

/-- A workbook: named sheets in order (`wb.sheetnames` order). -/
abbrev Workbook := List (String × Sheet)

/-- Characters Python's `\s` (ASCII range) matches. -/
def isPyWs (c : Char) : Bool :=
  c = ' ' ∨ c = '\t' ∨ c = '\n' ∨ c = '\r' ∨ c = '\x0b' ∨ c = '\x0c'

/-- `re.compile(r"\s+").sub(" ", s)` on a character list: each maximal whitespace
run becomes a single space (source line 30 / 151). -/
def reWsubAux : Bool → List Char → List Char
  | _, [] => []
  | prevWs, c :: rest =>
    if isPyWs c then
      if prevWs then reWsubAux true rest else ' ' :: reWsubAux true rest
    else c :: reWsubAux false rest

/-- Python `str.strip()`: drop leading and trailing whitespace. -/
def pyStrip (cs : List Char) : List Char :=
  ((cs.dropWhile isPyWs).reverse.dropWhile isPyWs).reverse

/-- `re_w.sub(" ", s).strip()` — header whitespace normalization (source line 151). -/
def pyNormWs (s : String) : String :=
  String.mk (pyStrip (reWsubAux false s.toList))

/-- The final path component (`pathlib.PurePath.name` for the paths at issue). -/
def afterLastChar (sep : Char) (cs : List Char) : List Char :=
  (cs.reverse.takeWhile (fun c => c ≠ sep)).reverse

/-- `pathlib.PurePath.suffix`: the extension of the final component including the
leading dot, or `""` when the name has no usable dot (`"a."`, `".hidden"`, `"noext"`). -/
def pySuffix (p : String) : String :=
  let name := afterLastChar '/' p.toList
  let tail := afterLastChar '.' name
  if tail.length = name.length then ""
  else
    let i := name.length - tail.length - 1
    if 0 < i ∧ i < name.length - 1 then String.mk ('.' :: tail) else ""

/-- The `file` argument of `load_excel`: a string, a `pathlib.Path`, one of the two
accepted stream types, or anything else. -/
inductive FileArg where
  | strA (s : String)
  | pathA (s : String)
  | bufferedA
  | bytesA
  | otherA
deriving DecidableEq

/-- Argument validation of `load_excel` (source lines 57-76).  A string becomes a
`Path`; the two stream types short-circuit the path checks; a non-string,
non-stream value (including an actual `pathlib.Path`, since only `str` inputs are
converted) fails the `isinstance(path, Path)` test and raises `ValueError`.
String paths are then checked against `path.suffix not in {"xlsx", "xls"}`
(note: `Path.suffix` carries a leading dot) and against existence. -/
def load_validate (existsOnDisk : String → Bool) : FileArg → Except PyErr Unit
  | .bufferedA => .ok ()
  | .bytesA => .ok ()
  | .strA s =>
    if ¬ (pySuffix s = "xlsx" ∨ pySuffix s = "xls") then .error .valueError
    else if ¬ existsOnDisk s then .error .valueError
    else .ok ()
  | .pathA _ => .error .valueError
  | .otherA => .error .valueError

/-- The `sheet` argument: integer index or sheet name. -/
inductive SheetSel where
  | idx (k : Int)
  | name (s : String)
deriving DecidableEq

/-- Sheet resolution (source lines 115-128).  An integer selector runs
`book.worksheets[0]` — the literal index 0, whatever the integer is; a name runs
`book[sheet]`.  `IndexError` / `KeyError` are caught and re-raised as
`ValueError` with context. -/
def resolveSheet (wb : Workbook) : SheetSel → Except PyErr Sheet
  | .idx _ =>
    match wb with
    | [] => .error .valueError
    | s :: _ => .ok s.2
  | .name n =>
    match wb.find? (fun p => p.1 = n) with
    | Option.none => .error .valueError
    | some p => .ok p.2

/-- The frozen column index set computed on the header row (source lines 144-146):
`[i_col + i for i, cell in enumerate(row) if test_cols(cell.value)]`.
The enumeration runs over the whole row from index 0, while the kept index is
offset by the anchor column. -/
def headIdxs (tcols : CellVal → Bool) (icol : Nat) (row : List CellVal) : List Nat :=
  (row.enum.filter (fun p => tcols p.2)).map (fun p => icol + p.1)

/-- `[row[i].value for i in idxs]` (source line 148); an out-of-range index is a
Python `IndexError`, modelled as `Option.none`. -/
def selectData (row : List CellVal) (idxs : List Nat) : Option (List CellVal) :=
  idxs.mapM (fun i => row[i]?)

/-- Header-field normalization (source line 151): `re_w.sub(" ", old).strip()`.
`re.sub` raises `TypeError` when its target is not a string (e.g. a `None` or
numeric cell value). -/
def normHeadCell : CellVal → Except PyErr CellVal
  | .str s => .ok (.str (pyNormWs s))
  | _ => .error .typeError

/-- The scan loop of `load_excel` (source lines 130-156).  State: `ri` is
`read_immediately`, `hr` is `head_read`, `icol` is `i_col`, `idxs` the frozen
column set.  Each step: while `ri` is false, search the row left-to-right for a
cell satisfying `test_cell`; a hit fixes `icol` and flips `ri`, a miss skips the
row.  In data mode, a `None` value at the anchor column breaks the loop; otherwise
the first such row computes `idxs` and is normalized as the header, and every later
row appends the raw values at `idxs`. -/
def scanRows (tc tcols : CellVal → Bool) :
    Bool → Bool → Nat → List Nat → List (List CellVal) →
    Except PyErr (List (List CellVal))
  | _, _, _, _, [] => .ok []
  | ri, hr, icol, idxs, row :: rest =>
    let anchor : Option Nat := if ri then some icol else row.findIdx? tc
    match anchor with
    | Option.none => scanRows tc tcols false hr icol idxs rest
    | some icol =>
      match row[icol]? with
      | Option.none => .error .indexError
      | some v =>
        if v = CellVal.none then .ok []
        else
          let idxs := if hr then idxs else headIdxs tcols icol row
          match selectData row idxs with
          | Option.none => .error .indexError
          | some data =>
            if hr then
              match scanRows tc tcols true true icol idxs rest with
              | .ok rs => .ok (data :: rs)
              | .error e => .error e
            else
              match data.mapM normHeadCell with
              | .error e => .error e
              | .ok hdr =>
                match scanRows tc tcols true true icol idxs rest with
                | .ok rs => .ok (hdr :: rs)
                | .error e => .error e

/-- The footer guard (source lines 158-161):
`if skip_foot is not None and len(rows) < 2 and skip_foot > (len(rows) - 1)`.
Both length conditions must hold for the `ValueError` to fire. -/
def footGuard (rows : List (List CellVal)) (skip_foot : Option Int) :
    Except PyErr Unit :=
  match skip_foot with
  | Option.none => .ok ()
  | some n =>
    if rows.length < 2 ∧ n > (rows.length : Int) - 1 then .error .valueError
    else .ok ()

/-- Python list slice `l[:n]` (non-negative `n` keeps the first `n` elements;
negative `n` keeps all but the last `-n`). -/
def pySliceTo (l : List α) (n : Int) : List α :=
  if 0 ≤ n then l.take n.toNat else l.take (l.length - (-n).toNat)

/-- `rows if skip_foot is None else rows[:skip_foot]` (source line 163). -/
def trimFoot (rows : List (List CellVal)) (skip_foot : Option Int) :
    List (List CellVal) :=
  match skip_foot with
  | Option.none => rows
  | some n => pySliceTo rows n

/-- The string a cell value contributes to the CSV intermediate that
`pl.read_csv` re-parses as Utf8 (source lines 100-101, 163-166). -/
def renderCell : CellVal → String
  | .str s => s
  | .int n => toString n
  | CellVal.none => ""

/-- `load_excel` end to end (source lines 33-166).  `existsOnDisk` models the
filesystem, `openBook` the result of `openpyxl.open` on the given source
(`Option.none` when opening fails, wrapped into `RuntimeError`).  `zero_cell` is
the anchor predicate over cell values (`Option.none` means `read_immediately`
starts true and the trivial predicate is installed); `tcols` is the `test_cols`
closure built from `take_cols` (trivially true when `take_cols is None`).
The result is the list of rows handed to the CSV writer, each cell rendered
to its text form. -/
def load_excel (existsOnDisk : String → Bool) (openBook : FileArg → Option Workbook)
    (file : FileArg) (sheet : SheetSel) (zero_cell : Option (CellVal → Bool))
    (skip_foot : Option Int) (tcols : CellVal → Bool) :
    Except PyErr (List (List String)) :=
  match load_validate existsOnDisk file with
  | .error e => .error e
  | .ok _ =>
    match openBook file with
    | Option.none => .error .runtimeError
    | some wb =>
      match resolveSheet wb sheet with
      | .error e => .error e
      | .ok sh =>
        let tc := zero_cell.getD (fun _ => true)
        match scanRows tc tcols zero_cell.isNone false 0 [] sh with
        | .error e => .error e
        | .ok rows =>
          match footGuard rows skip_foot with
          | .error e => .error e
          | .ok _ =>
            .ok ((trimFoot rows skip_foot).map (fun r => r.map renderCell))

/-- In-memory table handed to `save_excel` (polars DataFrame at the granularity
the exporter uses: column names and rows of values, via `df.to_dicts()`). -/
structure DataFrame where
  cols : List String
  rows : List (List CellVal)
deriving DecidableEq

/-- The `path` argument of `save_excel`: a string, a `pathlib.Path`, or a writable
stream (the `IO[bytes]` of the signature). -/
inductive SavePath where
  | strP (s : String)
  | pathP (s : String)
  | ioP
deriving DecidableEq

/-- Path validation of `save_excel` (source lines 188-198).  A string becomes a
`Path`; any non-`Path` (including the stream the signature advertises) raises
`ValueError`.  The suffix test in the source is `if path.suffix == ".xlsx":
raise ...`, so the error fires precisely when the path ends in `.xlsx`. -/
def save_validate : SavePath → Except PyErr String
  | .strP s => if pySuffix s = ".xlsx" then .error .valueError else .ok s
  | .pathP s => if pySuffix s = ".xlsx" then .error .valueError else .ok s
  | .ioP => .error .valueError

/-- The sheet written for a table (source lines 231-236): iterating
`df.to_dicts()`, the header (column names) is emitted before the first row only,
then each row's values; an empty table writes nothing at all. -/
def dfSheet (df : DataFrame) : Sheet :=
  match df.rows with
  | [] => []
  | rs => (df.cols.map CellVal.str) :: rs

/-- Body of `save_excel` once the workbook is open (source lines 206-243).
Outcome: the returned table plus `some (path, workbook)` when `wb.save` runs
with that final workbook content, `Option.none` when the function returns
without saving.  When the target name exists: an unknown policy string raises
`ValueError`; `overwrite` deletes the sheet and proceeds; `assert` raises
`AssertionError`; `skip` returns the table with no deletion, creation or save.
Otherwise a fresh sheet is appended and the workbook saved. -/
def saveBody (wb : Workbook) (name : String) (pol : String) (df : DataFrame)
    (p : String) : Except PyErr (DataFrame × Option (String × Workbook)) :=
  if name ∈ wb.map Prod.fst then
    if ¬ (pol = "overwrite" ∨ pol = "assert" ∨ pol = "skip") then .error .valueError
    else if pol = "overwrite" then
      .ok (df, some (p, (wb.filter (fun q => q.1 ≠ name)) ++ [(name, dfSheet df)]))
    else if pol = "assert" then .error .assertionError
    else .ok (df, Option.none)
  else .ok (df, some (p, wb ++ [(name, dfSheet df)]))

/-- `save_excel` end to end (source lines 169-244).  `fsBooks` maps an existing
destination path to its current document; a missing path opens a fresh
write-only workbook, which has no sheets.  `sheet_name = Option.none` defaults
to `"Sheet"` (source line 208). -/
def save_excel (fsBooks : String → Option Workbook) (path : SavePath)
    (df : DataFrame) (sheet_name : Option String) (pol : String) :
    Except PyErr (DataFrame × Option (String × Workbook)) :=
  match save_validate path with
  | .error e => .error e
  | .ok p => saveBody ((fsBooks p).getD []) (sheet_name.getD "Sheet") pol df p

/-- `true` exactly on string cell values. -/
def isStrCell : CellVal → Bool
  | .str _ => true
  | _ => false

/-! ## Theorems for the claims -/

/-- C1: the claim says `save_excel` accepts exactly the `.xlsx` destinations.  The
source's check is inverted (`if path.suffix == ".xlsx": raise`): a `.xlsx`
destination raises the usage error while a `.txt` destination passes validation
and proceeds to the write. -/
theorem c1_save_validate_rejects_xlsx_accepts_txt :
    save_validate (SavePath.strP "out.xlsx") = Except.error PyErr.valueError ∧
    save_validate (SavePath.strP "out.txt") = Except.ok "out.txt" :=
  ⟨rfl, rfl⟩

/-- C2: the claim says `skip_foot = n` removes the last `n` collected rows.  The
source slices `rows[:skip_foot]`, keeping only the FIRST `n` rows: with four
collected rows and `skip_foot = 1` only the header survives, instead of the
first three rows the claim prescribes. -/
theorem c2_skip_foot_keeps_first_rows :
    trimFoot [[CellVal.str "h"], [CellVal.str "a"], [CellVal.str "b"],
      [CellVal.str "c"]] (some 1) = [[CellVal.str "h"]] ∧
    trimFoot [[CellVal.str "h"], [CellVal.str "a"], [CellVal.str "b"],
      [CellVal.str "c"]] (some 1)
      ≠ [[CellVal.str "h"], [CellVal.str "a"], [CellVal.str "b"]] :=
  ⟨rfl, by decide⟩

/-- C3: the claim says an existing string path with extension `xlsx`/`xls` is
accepted.  The source compares `path.suffix` (which always carries a leading
dot, `".xlsx"`) against the dotless set `{"xlsx", "xls"}`, so even an existing
`data.xlsx` raises the usage error; streams are accepted as the claim states. -/
theorem c3_existing_xlsx_string_path_rejected :
    load_validate (fun _ => true) (FileArg.strA "data.xlsx")
      = Except.error PyErr.valueError ∧
    load_validate (fun _ => false) FileArg.bytesA = Except.ok () :=
  ⟨rfl, rfl⟩

/-- C4: the claim says integer selector `k` resolves to the sheet at index `k`.
The source runs `book.worksheets[0]` for every integer selector: on a two-sheet
workbook, selector `1` yields the first sheet, not the second. -/
theorem c4_int_selector_always_first_sheet :
    resolveSheet [("A", [[CellVal.str "a"]]), ("B", [[CellVal.str "b"]])]
        (SheetSel.idx 1) = Except.ok [[CellVal.str "a"]] ∧
    resolveSheet [("A", [[CellVal.str "a"]]), ("B", [[CellVal.str "b"]])]
        (SheetSel.idx 1) ≠ Except.ok [[CellVal.str "b"]] :=
  ⟨rfl, fun hcontra => absurd (Except.ok.inj hcontra) (by decide)⟩

/-- C5: the claim says an oversized footer count raises a configuration error
even when more than one row was collected.  The source's guard conjoins
`len(rows) < 2` with the size test, so with three collected rows and
`skip_foot = 5` no error is raised; the guard only fires when fewer than two
rows were collected. -/
theorem c5_foot_guard_silent_with_three_rows :
    footGuard [[CellVal.str "h"], [CellVal.str "a"], [CellVal.str "b"]] (some 5)
      = Except.ok () ∧
    footGuard [[CellVal.str "h"]] (some 1) = Except.error PyErr.valueError :=
  ⟨rfl, rfl⟩

/-- C6: the claim says the column predicate is tested on the header fields from
the anchor column onward, the tested field being the kept one.  The source
enumerates the whole row from index 0 but keeps index `i_col + i`: with the
anchor at column 1, header `[X, A, B]` and a predicate matching exactly `"A"`,
the match at enumeration position 1 keeps absolute column 2, so the extracted
table is column `B` (header `B`, data `b1`), not column `A`. -/
theorem c6_column_predicate_offset_mismatch :
    scanRows (fun v => v = CellVal.str "A") (fun v => v = CellVal.str "A")
        false false 0 []
        [[CellVal.str "X", CellVal.str "A", CellVal.str "B"],
         [CellVal.str "x1", CellVal.str "a1", CellVal.str "b1"]]
      = Except.ok [[CellVal.str "B"], [CellVal.str "b1"]] :=
  rfl

/-- C7: once in data-collection mode, a row whose anchor-column cell is empty
(`None`) terminates the scan at once: whatever rows follow — populated or not —
the scan from that row on contributes nothing. -/
theorem c7_empty_anchor_stops_scan (tc tcols : CellVal → Bool) (hr : Bool)
    (icol : Nat) (idxs : List Nat) (row : List CellVal)
    (rest : List (List CellVal)) (h : row[icol]? = some CellVal.none) :
    scanRows tc tcols true hr icol idxs (row :: rest) = Except.ok [] := by
  simp [scanRows, h]

/-- Witness for C7: a `None` anchor cell ends the scan even though a later row
has a non-empty anchor cell. -/
theorem c7_empty_anchor_stops_scan_witness :
    scanRows (fun _ => true) (fun _ => true) true true 0 []
      [[CellVal.none], [CellVal.str "later"]] = Except.ok [] :=
  c7_empty_anchor_stops_scan (fun _ => true) (fun _ => true) true 0 []
    [CellVal.none] [[CellVal.str "later"]] rfl

/-- C8: with the destination document already containing the target sheet name,
policy `skip` returns the input table and performs no deletion, creation or
save (the outcome's save component is `Option.none`, so the document on disk is
untouched). -/
theorem c8_skip_returns_df_no_save (fsBooks : String → Option Workbook)
    (path : SavePath) (df : DataFrame) (name p : String) (wb : Workbook)
    (hv : save_validate path = Except.ok p) (hb : fsBooks p = some wb)
    (hm : name ∈ wb.map Prod.fst) :
    save_excel fsBooks path df (some name) "skip"
      = Except.ok (df, Option.none) := by
  unfold save_excel
  rw [hv]
  simp [hb, saveBody, hm]

/-- Witness for C8: an existing `out.bin` document with sheet `S1`, policy
`skip`, target sheet `S1`. -/
theorem c8_skip_returns_df_no_save_witness :
    save_excel
      (fun s => if s = "out.bin" then some [("S1", [[CellVal.str "z"]])]
                else Option.none)
      (SavePath.strP "out.bin") ⟨["c"], [[CellVal.int 1]]⟩ (some "S1") "skip"
      = Except.ok (⟨["c"], [[CellVal.int 1]]⟩, Option.none) :=
  c8_skip_returns_df_no_save
    (fun s => if s = "out.bin" then some [("S1", [[CellVal.str "z"]])]
              else Option.none)
    (SavePath.strP "out.bin") ⟨["c"], [[CellVal.int 1]]⟩ "S1" "out.bin"
    [("S1", [[CellVal.str "z"]])] rfl (by simp) (by simp)

/-- C9: in the scan, whitespace normalization happens exactly once, on the
header row.  With the header already read (`head_read = true`), a data row
contributes precisely the raw selected values `data`; with the header not yet
read, the row contributes the normalized header `hdr` and the scan continues in
data mode with the frozen index set. -/
theorem c9_norm_only_header (tc tcols : CellVal → Bool) (icol : Nat)
    (idxs : List Nat) (row : List CellVal) (rest : List (List CellVal))
    (v : CellVal) (data hdrRaw hdr : List CellVal)
    (hv : row[icol]? = some v) (hne : v ≠ CellVal.none)
    (hd : selectData row idxs = some data)
    (hh : selectData row (headIdxs tcols icol row) = some hdrRaw)
    (hn : hdrRaw.mapM normHeadCell = Except.ok hdr) :
    scanRows tc tcols true true icol idxs (row :: rest)
      = Except.map (fun rs => data :: rs)
          (scanRows tc tcols true true icol idxs rest)
    ∧ scanRows tc tcols true false icol idxs (row :: rest)
      = Except.map (fun rs => hdr :: rs)
          (scanRows tc tcols true true icol (headIdxs tcols icol row) rest) := by
  constructor
  · cases h2 : scanRows tc tcols true true icol idxs rest <;>
      simp [scanRows, hv, hne, hd, h2, Except.map]
  · have hn2 : List.mapM.loop normHeadCell hdrRaw [] = Except.ok hdr := hn
    cases h2 : scanRows tc tcols true true icol (headIdxs tcols icol row) rest <;>
      simp [scanRows, hv, hne, hh, hn2, h2, Except.map]

/-- Witness for C9: header row with a whitespace-laden field followed by one
data row scan; the header is collapsed and trimmed, the data values untouched. -/
theorem c9_norm_only_header_witness :
    scanRows (fun _ => true) (fun _ => true) true true 0 [0, 1]
        [[CellVal.str "  a  b ", CellVal.str "c"]]
      = Except.map (fun rs => [CellVal.str "  a  b ", CellVal.str "c"] :: rs)
          (scanRows (fun _ => true) (fun _ => true) true true 0 [0, 1] [])
    ∧ scanRows (fun _ => true) (fun _ => true) true false 0 [0, 1]
        [[CellVal.str "  a  b ", CellVal.str "c"]]
      = Except.map (fun rs => [CellVal.str "a b", CellVal.str "c"] :: rs)
          (scanRows (fun _ => true) (fun _ => true) true true 0
            (headIdxs (fun _ => true) 0 [CellVal.str "  a  b ", CellVal.str "c"])
            []) :=
  c9_norm_only_header (fun _ => true) (fun _ => true) 0 [0, 1]
    [CellVal.str "  a  b ", CellVal.str "c"] []
    (CellVal.str "  a  b ")
    [CellVal.str "  a  b ", CellVal.str "c"]
    [CellVal.str "  a  b ", CellVal.str "c"]
    [CellVal.str "a b", CellVal.str "c"]
    rfl (by decide) rfl rfl rfl

/-- Any selected header list containing a non-string value makes the
normalization step fail with `TypeError` (the first failing `re.sub`). -/
theorem mapM_normHeadCell_error (data : List CellVal)
    (h : ∃ x ∈ data, isStrCell x = false) :
    ∀ acc, List.mapM.loop normHeadCell data acc = Except.error PyErr.typeError := by
  induction data with
  | nil => simp at h
  | cons a l ih =>
    intro acc
    rcases h with ⟨x, hx, hxs⟩
    rcases List.mem_cons.mp hx with h1 | h2
    · subst h1
      cases x with
      | str s => simp [isStrCell] at hxs
      | none => rfl
      | int n => rfl
    · cases a with
      | str s =>
        show List.mapM.loop normHeadCell l (CellVal.str (pyNormWs s) :: acc)
          = Except.error PyErr.typeError
        exact ih ⟨x, h2, hxs⟩ _
      | none => rfl
      | int n => rfl

/-- C10: a non-string value (empty cell read as `None`, numeric cell, ...) at a
selected column of the header row makes the scan fail with the unwrapped
`TypeError` from `re_w.sub`, not with any of the documented `ValueError` /
`RuntimeError` classes. -/
theorem c10_nonstring_header_typeerror (tc tcols : CellVal → Bool) (icol : Nat)
    (idxs : List Nat) (row : List CellVal) (rest : List (List CellVal))
    (v : CellVal) (hdrRaw : List CellVal)
    (hv : row[icol]? = some v) (hne : v ≠ CellVal.none)
    (hh : selectData row (headIdxs tcols icol row) = some hdrRaw)
    (hbad : ∃ x ∈ hdrRaw, isStrCell x = false) :
    scanRows tc tcols true false icol idxs (row :: rest)
      = Except.error PyErr.typeError := by
  have hm := mapM_normHeadCell_error hdrRaw hbad []
  simp [scanRows, hv, hne, hh, hm]

/-- Witness for C10: a header row whose anchor cell is a string but whose second
selected cell is an empty (`None`) cell. -/
theorem c10_nonstring_header_typeerror_witness :
    scanRows (fun _ => true) (fun _ => true) true false 0 []
        [[CellVal.str "H", CellVal.none, CellVal.str "K"]]
      = Except.error PyErr.typeError :=
  c10_nonstring_header_typeerror (fun _ => true) (fun _ => true) 0 []
    [CellVal.str "H", CellVal.none, CellVal.str "K"] []
    (CellVal.str "H")
    [CellVal.str "H", CellVal.none, CellVal.str "K"]
    rfl (by decide) rfl (by decide)

end Xl2pl
